import Mathlib

/-!
Verification of the bifrost transport and replication core against its
design specification.  The Rust sources are shallowly embedded: byte
buffers become `List Nat` (each element a byte value), fallible or
panicking code returns `Option`, and state-machine objects become Lean
structures with explicit state passing.
-/

namespace Bifrost

/-! ## Wire protocol: framing (src/rpc/mod.rs)

`prepend_u64` writes a u64 in little-endian order in front of a payload;
`read_u64_head` consumes the 8-byte little-endian head of a buffer.
-/

/-- Little-endian byte encoding of `n`, `k` bytes wide.  Models
`BytesMut.put_u64_le` for `k = 8` (the argument is a Rust `u64`, so
`n < 2 ^ 64` at every call site). -/
def natToLEBytes : Nat → Nat → List Nat
  | 0, _ => []
  | k + 1, n => n % 256 :: natToLEBytes k (n / 256)

/-- Little-endian byte decoding, the whole list.  Models reading a
little-endian integer from a byte slice. -/
def leBytesToNat : List Nat → Nat
  | [] => 0
  | b :: rest => b + 256 * leBytesToNat rest

/-- Embedding of `prepend_u64` (src/rpc/mod.rs lines 177-182): an 8-byte
little-endian header carrying `num`, followed by `data`. -/
def prepend_u64 (num : Nat) (data : List Nat) : List Nat :=
  natToLEBytes 8 num ++ data

/-- Embedding of `read_u64_head` (src/rpc/mod.rs lines 96-100).
`data.get_u64_le()` panics unless 8 bytes are available, then advances
the buffer by 8; the following `LittleEndian::read_u64(data.as_ref())`
discards its result but panics unless the *remaining* buffer still has
8 bytes.  Panics are modelled as `none`. -/
def read_u64_head (data : List Nat) : Option (Nat × List Nat) :=
  if 8 ≤ data.length then
    let num := leBytesToNat (data.take 8)
    let rest := data.drop 8
    if 8 ≤ rest.length then some (num, rest) else none
  else none

/-! ## Wire protocol: response status encoding (src/rpc/mod.rs) -/

/-- Embedding of `RPCRequestError` (src/rpc/mod.rs lines 29-34). -/
inductive RPCRequestError where
  | FunctionIdNotFound
  | ServiceIdNotFound
  | Other
deriving DecidableEq, Repr

/-- Embedding of `RPCError` (src/rpc/mod.rs lines 36-40); the wrapped
`io::Error` payload is irrelevant to the claims and dropped. -/
inductive RPCError where
  | IOError
  | RequestError (e : RPCRequestError)
deriving DecidableEq, Repr

/-- Embedding of `encode_res` (src/rpc/mod.rs lines 64-76): success is
status byte 0 followed by the payload; an error is a single status byte
1, 2 or 255 with no payload. -/
def encode_res : Except RPCRequestError (List Nat) → List Nat
  | Except.ok buffer => 0 :: buffer
  | Except.error e =>
    let err_id : Nat :=
      match e with
      | RPCRequestError.FunctionIdNotFound => 1
      | RPCRequestError.ServiceIdNotFound => 2
      | _ => 255
    [err_id]

/-- Embedding of `decode_res` (src/rpc/mod.rs lines 78-94).  The
transport-level argument is `Except Unit` (an I/O failure carries no
information the claims need).  Indexing `res[0]` into an empty buffer
panics, modelled as `none`. -/
def decode_res : Except Unit (List Nat) → Option (Except RPCError (List Nat))
  | Except.ok [] => none
  | Except.ok (b :: rest) =>
    if b = 0 then some (Except.ok rest)
    else if b = 1 then
      some (Except.error (RPCError.RequestError RPCRequestError.FunctionIdNotFound))
    else if b = 2 then
      some (Except.error (RPCError.RequestError RPCRequestError.ServiceIdNotFound))
    else some (Except.error (RPCError.RequestError RPCRequestError.Other))
  | Except.error _ => some (Except.error RPCError.IOError)

/-! ## Framing lemmas -/

theorem natToLEBytes_length (k n : Nat) : (natToLEBytes k n).length = k := by
  induction k generalizing n with
  | zero => rfl
  | succ k ih => simp [natToLEBytes, ih]

theorem leBytesToNat_natToLEBytes (k n : Nat) :
    leBytesToNat (natToLEBytes k n) = n % 256 ^ k := by
  induction k generalizing n with
  | zero => simp [natToLEBytes, leBytesToNat, Nat.mod_one]
  | succ k ih =>
    rw [natToLEBytes, leBytesToNat, ih, pow_succ, mul_comm (256 ^ k) 256,
      Nat.mod_mul]

/-- The 8-byte header round-trips any `u64`, and the payload bytes are
untouched; valid only when at least 8 payload bytes remain, because of
the discarded-but-panicking second read in `read_u64_head`. -/
theorem read_u64_head_prepend_u64 (num : Nat) (data : List Nat)
    (hnum : num < 2 ^ 64) (hlen : 8 ≤ data.length) :
    read_u64_head (prepend_u64 num data) = some (num, data) := by
  have h8 : (natToLEBytes 8 num).length = 8 := natToLEBytes_length 8 num
  have htake : (natToLEBytes 8 num ++ data).take 8 = natToLEBytes 8 num := by
    rw [List.take_append_of_le_length (by omega), List.take_of_length_le (by omega)]
  have hdrop : (natToLEBytes 8 num ++ data).drop 8 = data := by
    have hd := List.drop_left (natToLEBytes 8 num) data
    rwa [h8] at hd
  have hmod : num % 256 ^ 8 = num := by
    apply Nat.mod_eq_of_lt
    calc num < 2 ^ 64 := hnum
    _ = 256 ^ 8 := by norm_num
  have hlen2 : 8 ≤ (natToLEBytes 8 num ++ data).length := by
    rw [List.length_append, h8]; omega
  show read_u64_head (natToLEBytes 8 num ++ data) = some (num, data)
  rw [read_u64_head, if_pos hlen2]
  simp only [htake, hdrop, leBytesToNat_natToLEBytes, hmod]
  rw [if_pos hlen]

/-- Claim C1: framing a request with `prepend_u64` and reading it back
with `read_u64_head` reproduces the pair (service id, payload), and the
success path of `encode_res` followed by `decode_res` reproduces the
handler payload with the status byte stripped.  The framing half holds
only for payloads of at least 8 bytes: `read_u64_head` evaluates
`LittleEndian::read_u64` on the remaining payload and discards the
result, which panics when fewer than 8 payload bytes remain — e.g. on
the empty payload, exhibited in the last conjunct. -/
theorem c1_roundtrip_and_short_payload_panic :
    (∀ num data, num < 2 ^ 64 → 8 ≤ List.length data →
      read_u64_head (prepend_u64 num data) = some (num, data))
    ∧ (∀ p : List Nat,
        decode_res (Except.ok (encode_res (Except.ok p))) = some (Except.ok p))
    ∧ read_u64_head (prepend_u64 0 []) = none := by
  refine ⟨fun num data h1 h2 => read_u64_head_prepend_u64 num data h1 h2,
    fun p => rfl, by decide⟩

/-- Witness for C1 at concrete inputs: service id 5 with an 8-byte
payload round-trips, and a success response with payload [3, 4]
round-trips. -/
theorem c1_roundtrip_witness :
    read_u64_head (prepend_u64 5 [9, 9, 9, 9, 9, 9, 9, 9]) =
      some (5, [9, 9, 9, 9, 9, 9, 9, 9])
    ∧ decode_res (Except.ok (encode_res (Except.ok [3, 4]))) =
      some (Except.ok [3, 4]) :=
  ⟨c1_roundtrip_and_short_payload_panic.1 5 [9, 9, 9, 9, 9, 9, 9, 9]
      (by norm_num) (by norm_num),
   c1_roundtrip_and_short_payload_panic.2.1 [3, 4]⟩

/-- Claim C2: the response encoding uses exactly status codes 0
(success, payload follows), 1 (FunctionIdNotFound), 2
(ServiceIdNotFound) and 255 (Other), each error a single byte with no
payload, and `decode_res` maps leading byte 0 to success with the
status byte removed, 1 to FunctionIdNotFound and 2 to
ServiceIdNotFound. -/
theorem c2_status_codes :
    (∀ payload : List Nat, encode_res (Except.ok payload) = 0 :: payload)
    ∧ encode_res (Except.error RPCRequestError.FunctionIdNotFound) = [1]
    ∧ encode_res (Except.error RPCRequestError.ServiceIdNotFound) = [2]
    ∧ encode_res (Except.error RPCRequestError.Other) = [255]
    ∧ (∀ rest : List Nat,
        decode_res (Except.ok (0 :: rest)) = some (Except.ok rest)
        ∧ decode_res (Except.ok (1 :: rest)) =
            some (Except.error (RPCError.RequestError RPCRequestError.FunctionIdNotFound))
        ∧ decode_res (Except.ok (2 :: rest)) =
            some (Except.error (RPCError.RequestError RPCRequestError.ServiceIdNotFound))) :=
  ⟨fun _ => rfl, rfl, rfl, rfl, fun _ => ⟨rfl, rfl, rfl⟩⟩

/-! ## Server dispatch (src/rpc/mod.rs, `Server::listen`)

The per-message closure of `Server::listen` (lines 115-133): parse the
8-byte service id, look the id up in the `services` map (read lock),
dispatch to the handler when found, otherwise log the unknown id with
the currently registered ids and answer `ServiceIdNotFound`.  Handlers
may be stateful; a shared handler-state type `σ` is threaded
explicitly.  The registry (a `HashMap` in the source) is an association
list; it is returned unchanged, as `listen` only ever takes the read
lock on it. -/

/-- A registered RPC service handler: `dispatch` consumes the payload
after the service-id header and the handler state. -/
structure ServiceHandler (σ : Type) where
  dispatch : List Nat → σ → Except RPCRequestError (List Nat) × σ

/-- What one inbound message produces: the response bytes, the registry
and handler state afterwards, whether some handler was invoked, and the
`debug!` log entry (unknown id, list of known ids), if any. -/
structure ListenOutcome (σ : Type) where
  response : List Nat
  registry : List (Nat × ServiceHandler σ)
  state : σ
  invoked : Bool
  logged : Option (Nat × List Nat)

/-- Embedding of the message-handling closure in `Server::listen`
(src/rpc/mod.rs lines 115-133).  `none` models a panic inside
`read_u64_head`. -/
def handle_message {σ : Type} (registry : List (Nat × ServiceHandler σ))
    (st : σ) (data : List Nat) : Option (ListenOutcome σ) :=
  match read_u64_head data with
  | none => none
  | some (svr_id, rest) =>
    match registry.lookup svr_id with
    | some service =>
      let out := service.dispatch rest st
      some ⟨encode_res out.1, registry, out.2, true, none⟩
    | none =>
      some ⟨encode_res (Except.error RPCRequestError.ServiceIdNotFound),
        registry, st, false, some (svr_id, registry.map Prod.fst)⟩

/-- Claim C3: a message whose parsed service id has no registered
handler yields the single status byte 2 (ServiceIdNotFound), logs the
unknown id together with the registered service ids, invokes no
handler, and leaves the registry and the handler state unchanged. -/
theorem c3_unknown_service_id {σ : Type}
    (registry : List (Nat × ServiceHandler σ)) (st : σ) (data : List Nat)
    (svr_id : Nat) (rest : List Nat)
    (hparse : read_u64_head data = some (svr_id, rest))
    (hmiss : registry.lookup svr_id = none) :
    handle_message registry st data =
      some ⟨[2], registry, st, false, some (svr_id, registry.map Prod.fst)⟩ := by
  rw [handle_message, hparse]
  simp only [hmiss]
  rfl

/-- Witness for C3: an empty registry, a 16-byte message carrying
service id 1 and an 8-byte payload. -/
theorem c3_unknown_service_id_witness :
    handle_message ([] : List (Nat × ServiceHandler Unit)) ()
        (1 :: [0, 0, 0, 0, 0, 0, 0] ++ [7, 7, 7, 7, 7, 7, 7, 7]) =
      some ⟨[2], [], (), false, some (1, [])⟩ :=
  c3_unknown_service_id [] ()
    (1 :: [0, 0, 0, 0, 0, 0, 0] ++ [7, 7, 7, 7, 7, 7, 7, 7])
    1 [7, 7, 7, 7, 7, 7, 7, 7] (by decide) rfl

/-! ## Replicated Value state machine (src/store/value.rs)

The `def_store_value!` macro instantiates, for a value type `T`, a
state machine `Value` with commands `set`/`get`, a change-subscription
callback, and snapshot/recovery.  The embedding is parametric in `T`;
`SMCallback` presence is `Option Unit`, and the notifications `set`
emits to the subscription channel are returned explicitly.  The
external bincode codec is a pair of functions `ser`/`des` passed where
the source calls serialize/deserialize. -/

/-- Embedding of `Value` (src/store/value.rs lines 11-15). -/
structure Value (T : Type) where
  val : T
  id : Nat
  callback : Option Unit

/-- Embedding of `StateMachineCmds::set` (src/store/value.rs lines
22-29): when a callback is attached, notify `(old, new)` with the value
read before the assignment, then store `v`.  The second component lists
the notifications emitted by this call, in order. -/
def Value.set {T : Type} (s : Value T) (v : T) : Value T × List (T × T) :=
  match s.callback with
  | some _ => ({ s with val := v }, [(s.val, v)])
  | none => ({ s with val := v }, [])

/-- Embedding of `StateMachineCmds::get` (src/store/value.rs lines
30-32): returns a clone of the current value, no mutation. -/
def Value.get {T : Type} (s : Value T) : T :=
  s.val

/-- Embedding of `StateMachineCtl::snapshot` (src/store/value.rs lines
36-38): `Some(serialize(&self.val))`. -/
def Value.snapshot {T : Type} (ser : T → List Nat) (s : Value T) :
    Option (List Nat) :=
  some (ser s.val)

/-- Embedding of `StateMachineCtl::recover` (src/store/value.rs lines
39-41): `self.val = deserialize(&data)`, everything else untouched. -/
def Value.recover {T : Type} (des : List Nat → T) (s : Value T)
    (data : List Nat) : Value T :=
  { s with val := des data }

/-- Embedding of `Value::new` (src/store/value.rs lines 47-53). -/
def Value.new {T : Type} (id : Nat) (val : T) : Value T :=
  ⟨val, id, none⟩

/-- Embedding of `Value::new_by_name` (src/store/value.rs lines 54-56);
the external `hash_str` is a parameter. -/
def Value.new_by_name {T : Type} (hash_str : String → Nat) (name : String)
    (val : T) : Value T :=
  Value.new (hash_str name) val

/-- Embedding of `Value::init_callback` (src/store/value.rs lines
57-59): attaches the callback handle. -/
def Value.init_callback {T : Type} (s : Value T) : Value T :=
  { s with callback := some () }

/-- Claim C4: on a value with an attached callback, `set v` emits
exactly one `(old, new)` notification with `old` the value stored
immediately before and `new = v`, and any `get` executed after the set
returns `v`. -/
theorem c4_set_notifies_exactly_once {T : Type} (s : Value T) (v : T)
    (h : s.callback.isSome) :
    (s.set v).2 = [(s.val, v)] ∧ (s.set v).1.get = v := by
  match hc : s.callback with
  | some _ => exact ⟨by rw [Value.set, hc], by rw [Value.set, hc]; rfl⟩
  | none => rw [hc] at h; exact absurd h (by simp)

/-- Witness for C4: a `Value Nat` holding 3 with a callback attached;
setting 5 notifies `(3, 5)` and a subsequent get returns 5. -/
theorem c4_set_notifies_exactly_once_witness :
    ((⟨3, 1, some ()⟩ : Value Nat).set 5).2 = [(3, 5)]
    ∧ ((⟨3, 1, some ()⟩ : Value Nat).set 5).1.get = 5 :=
  c4_set_notifies_exactly_once ⟨3, 1, some ()⟩ 5 (by decide)

/-- Claim C5: `snapshot` serializes the whole current value, `recover`
replaces the stored value wholesale with the deserialized bytes while
keeping the id (and everything else), and, whenever the codec
round-trips, recovering from a snapshot restores the snapshotted state
exactly. -/
theorem c5_snapshot_recover_roundtrip {T : Type} (ser : T → List Nat)
    (des : List Nat → T) (hcodec : ∀ t, des (ser t) = t) (s : Value T)
    (data : List Nat) :
    s.snapshot ser = some (ser s.val)
    ∧ (s.recover des data).val = des data
    ∧ (s.recover des data).id = s.id
    ∧ s.recover des (ser s.val) = s := by
  refine ⟨rfl, rfl, rfl, ?_⟩
  rw [Value.recover, hcodec]

/-- Witness for C5: `Value Nat` holding 7 under the codec
`n ↦ [n]` / `head`, with recovery bytes `[9]`. -/
theorem c5_snapshot_recover_roundtrip_witness :
    (⟨7, 2, none⟩ : Value Nat).snapshot (fun n => [n]) = some [7]
    ∧ ((⟨7, 2, none⟩ : Value Nat).recover (fun l => l.headD 0) [9]).val = 9
    ∧ ((⟨7, 2, none⟩ : Value Nat).recover (fun l => l.headD 0) [9]).id = 2
    ∧ (⟨7, 2, none⟩ : Value Nat).recover (fun l => l.headD 0) [7] =
        (⟨7, 2, none⟩ : Value Nat) :=
  c5_snapshot_recover_roundtrip (fun n => [n]) (fun l => l.headD 0)
    (fun _ => rfl) ⟨7, 2, none⟩ [9]

/-- Claim C10: `Value.new` and `Value.new_by_name` leave the callback
unattached (`none`), and `set` on such a value still stores `v` while
emitting no notification. -/
theorem c10_no_callback_silent_set {T : Type} (hash_str : String → Nat)
    (id : Nat) (name : String) (v0 : T) (s : Value T) (v : T)
    (h : s.callback = none) :
    (Value.new id v0).callback = none
    ∧ (Value.new_by_name hash_str name v0).callback = none
    ∧ s.set v = ({ s with val := v }, []) := by
  refine ⟨rfl, rfl, ?_⟩
  rw [Value.set, h]

/-- Witness for C10: a fresh `Value Nat` built by `new`, then set
to 4 — the value updates and nothing is notified. -/
theorem c10_no_callback_silent_set_witness :
    (Value.new 1 (0 : Nat)).callback = none
    ∧ (Value.new_by_name (fun _ => 1) "x" (0 : Nat)).callback = none
    ∧ (Value.new 1 (0 : Nat)).set 4 = (⟨4, 1, none⟩, []) :=
  c10_no_callback_silent_set (fun _ => 1) 1 "x" 0 (Value.new 1 0) 4 rfl

/-! ## ClientPool, sequential behaviour (src/rpc/mod.rs lines 204-231)

`get_by_id` consults the `clients` map under the pool mutex; on a miss
it calls `RPCClient::new_async(addr_fn(server_id))` and caches the
result.  The TCP connect is abstracted into an oracle
`connect : Nat → Option Nat` giving the fresh client handle (or `none`
for an I/O error, which `?` propagates without inserting anything).
`connects` counts connections established, for stating that no new
connection is made on a cache hit. -/

/-- The pool map plus a count of connections established so far. -/
structure PoolState where
  clients : List (Nat × Nat)
  connects : Nat
deriving DecidableEq, Repr

/-- Embedding of `ClientPool::get_by_id` (src/rpc/mod.rs lines
217-230): return the cached client when present; otherwise connect via
the resolver, cache and return the new client.  `none` models the
propagated connect error. -/
def get_by_id (connect : Nat → Option Nat) (st : PoolState)
    (server_id : Nat) : Option (PoolState × Nat) :=
  match st.clients.lookup server_id with
  | some c => some (st, c)
  | none =>
    match connect server_id with
    | some cl =>
      some ({ clients := st.clients ++ [(server_id, cl)],
              connects := st.connects + 1 }, cl)
    | none => none

theorem lookup_append_left_none {β : Type} (k : Nat) (l₁ l₂ : List (Nat × β))
    (h : List.lookup k l₁ = none) :
    List.lookup k (l₁ ++ l₂) = List.lookup k l₂ := by
  induction l₁ with
  | nil => rfl
  | cons p rest ih =>
    obtain ⟨a, b⟩ := p
    simp only [List.cons_append, List.lookup] at h ⊢
    cases hk : (k == a) with
    | true => rw [hk] at h; exact Option.noConfusion h
    | false => rw [hk] at h; exact ih h

/-- Claim C7: after a first successful `get_by_id` for an id, any
subsequent call for the same id — even with a different (or failing)
resolver — returns the very same cached handle and leaves the pool
state untouched, so no new connection is established; since the state
is unchanged, the same holds for every later call. -/
theorem c7_get_by_id_cached (connect connect2 : Nat → Option Nat)
    (st st1 : PoolState) (sid c1 : Nat)
    (h : get_by_id connect st sid = some (st1, c1)) :
    get_by_id connect2 st1 sid = some (st1, c1) := by
  rw [get_by_id] at h
  match hl : List.lookup sid st.clients with
  | some c =>
    rw [hl] at h
    rw [Option.some.injEq, Prod.mk.injEq] at h
    obtain ⟨rfl, rfl⟩ := h
    rw [get_by_id, hl]
  | none =>
    rw [hl] at h
    match hc : connect sid with
    | none => rw [hc] at h; exact absurd h (by simp)
    | some cl =>
      rw [hc] at h
      rw [Option.some.injEq, Prod.mk.injEq] at h
      obtain ⟨rfl, rfl⟩ := h
      rw [get_by_id]
      simp only [lookup_append_left_none sid st.clients _ hl, List.lookup,
        beq_self_eq_true]

/-- Witness for C7: a first call on an empty pool connects and caches
handle 0 for id 7; the second call (with a resolver that would fail)
returns the cached handle and the unchanged pool. -/
theorem c7_get_by_id_cached_witness :
    get_by_id (fun _ => none) ⟨[(7, 0)], 1⟩ 7 = some (⟨[(7, 0)], 1⟩, 0) :=
  c7_get_by_id_cached (fun _ => some 0) (fun _ => none) ⟨[], 0⟩
    ⟨[(7, 0)], 1⟩ 7 0 (by decide)

/-! ## MemberService construction (src/membership/member.rs lines 27-54)

`MemberService::new` hashes the listen address into the server id,
awaits `sm_client.join(&server_address)` — discarding its result — and
then unconditionally spawns the heartbeat task.  The replication
layer's answer to the join is an oracle argument (`Except Unit Bool`,
the error payload being the external `ExecError`); the events the
constructor performs are returned in order. -/

/-- The constructed service state: server id, address, closed flag, and
whether the heartbeat task was spawned. -/
structure MemberServiceSt where
  id : Nat
  address : String
  closed : Bool
  heartbeatStarted : Bool

/-- Observable events of `MemberService::new`, in program order. -/
inductive NewEvent where
  | joinCompleted (result : Except Unit Bool)
  | heartbeatSpawned

/-- Embedding of `MemberService::new` (src/membership/member.rs lines
27-54): id = hash of the address, join issued and awaited first (its
result dropped on the floor), heartbeat task spawned afterwards in
every case. -/
def member_service_new (hash_str : String → Nat)
    (join_result : Except Unit Bool) (server_address : String) :
    MemberServiceSt × List NewEvent :=
  ({ id := hash_str server_address, address := server_address,
     closed := false, heartbeatStarted := true },
   [NewEvent.joinCompleted join_result, NewEvent.heartbeatSpawned])

/-- Counterexample to claim C8: constructing a MemberService while the
replication layer answers the join with an error still spawns the
heartbeat task — the transition to Active is not conditioned on the
join being acknowledged, because the source discards the result of
`sm_client.join(...)`. -/
theorem c8_heartbeat_despite_failed_join :
    (member_service_new String.length (Except.error ()) "addr").2 =
      [NewEvent.joinCompleted (Except.error ()), NewEvent.heartbeatSpawned]
    ∧ (member_service_new String.length (Except.error ()) "addr").1.heartbeatStarted
        = true :=
  ⟨rfl, rfl⟩

/-- Claim C8 as amended: construction derives the server id by hashing
the listen address and issues the join command synchronously (the
heartbeat task is spawned only after the join call completes), but the
heartbeat starts unconditionally, whatever the join outcome, with the
service open (closed flag unset). -/
theorem c8_construction_amended (hash_str : String → Nat)
    (join_result : Except Unit Bool) (addr : String) :
    (member_service_new hash_str join_result addr).1.id = hash_str addr
    ∧ (member_service_new hash_str join_result addr).2 =
        [NewEvent.joinCompleted join_result, NewEvent.heartbeatSpawned]
    ∧ (member_service_new hash_str join_result addr).1.heartbeatStarted = true
    ∧ (member_service_new hash_str join_result addr).1.closed = false :=
  ⟨rfl, rfl, rfl, rfl⟩

/-! ## MemberService heartbeat loop (src/membership/member.rs lines 43-52)

The spawned task loops: check the closed flag; if clear, resolve the
current leader (`current_leader_rpc_client`), ping it when resolution
succeeded (the ping result is discarded), and sleep `PING_INTERVAL`
milliseconds.  The environment's behaviour at each iteration — the
closed flag as observed at the top of the loop, the leader-resolution
outcome, and the ping outcome — is a `TickInput`; a run over a finite
prefix of such inputs yields the records of the iterations executed. -/

/-- Embedding of `PING_INTERVAL` (src/membership/member.rs line 15). -/
def PING_INTERVAL : Nat := 100

/-- Environment behaviour for one loop iteration. -/
structure TickInput where
  closed : Bool
  leader : Option Nat
  pingOk : Bool

/-- What one executed iteration did: whom it pinged (if anyone) and how
long it slept. -/
structure TickRecord where
  pinged : Option Nat
  slept : Nat
deriving DecidableEq, Repr

/-- One iteration body: ping the leader when resolution succeeded, then
sleep the fixed interval.  The ping outcome (`pingOk`) is never
consulted, as the source discards it. -/
def heartbeat_tick (inp : TickInput) : TickRecord :=
  match inp.leader with
  | some ep => { pinged := some ep, slept := PING_INTERVAL }
  | none => { pinged := none, slept := PING_INTERVAL }

/-- The heartbeat loop over a finite prefix of environment inputs:
stops exactly when the closed flag is observed at the top of an
iteration. -/
def heartbeat_loop : List TickInput → List TickRecord
  | [] => []
  | inp :: rest =>
    if inp.closed then [] else heartbeat_tick inp :: heartbeat_loop rest

theorem heartbeat_loop_eq_map (inputs : List TickInput) :
    heartbeat_loop inputs =
      (inputs.takeWhile (fun i => !i.closed)).map heartbeat_tick := by
  induction inputs with
  | nil => rfl
  | cons inp rest ih =>
    rw [heartbeat_loop, List.takeWhile]
    cases hc : inp.closed with
    | true => simp [hc]
    | false => simp [hc, ih]

/-- Claim C9: the heartbeat loop executes exactly the iterations up to
the first observation of the closed flag — leader-resolution failures
and ping failures never shorten it — every iteration sleeps the fixed
100-unit interval whatever the ping outcome, and a failed leader
resolution skips the ping with no error and no backoff. -/
theorem c9_heartbeat_loop_behaviour (inputs : List TickInput) :
    heartbeat_loop inputs =
      (inputs.takeWhile (fun i => !i.closed)).map heartbeat_tick
    ∧ (∀ c l p, (heartbeat_tick ⟨c, l, p⟩).slept = PING_INTERVAL)
    ∧ PING_INTERVAL = 100
    ∧ (∀ c p, heartbeat_tick ⟨c, none, p⟩ = ⟨none, 100⟩)
    ∧ (∀ c ep p, heartbeat_tick ⟨c, some ep, p⟩ = ⟨some ep, 100⟩) := by
  refine ⟨heartbeat_loop_eq_map inputs, fun c l p => ?_, rfl,
    fun c p => rfl, fun c ep p => rfl⟩
  cases l <;> rfl

/-! ## ClientPool under concurrency (claim C6)

In the source of `get_by_id` (src/rpc/mod.rs lines 217-230) the
`MutexGuard` obtained by `self.clients.lock().await` on the first line
lives to the end of the function: the map lookup, the
`RPCClient::new_async` connect and the map insert all run with the pool
map locked.  Two callers of `get_by_id` for the same unseen server id
are modelled as two threads of atomic steps over a shared machine
state; the mutex is acquired at function entry and released when the
guard is dropped, after the result is produced. -/

/-- One `get_by_id` caller.  `pc` values: 0 = before acquiring the pool
mutex, 1 = holding it, before the lookup, 2 = before the connect (the
lookup missed), 3 = before the insert (connected), 4 = result in hand,
before the guard drop, 5 = returned. -/
structure ThreadSt where
  pc : Nat
  localConn : Nat
  result : Option Nat
deriving DecidableEq, Repr

/-- The shared machine: the pool map and connection count, the mutex
owner, and the two caller threads. -/
structure Machine where
  pool : PoolState
  lockOwner : Option Bool
  t0 : ThreadSt
  t1 : ThreadSt
deriving DecidableEq, Repr

/-- One atomic step of caller `tid` with thread state `t`, following
the source line by line; a thread blocked on the mutex, or already
returned, does nothing.  Fresh client handles are numbered by the
running connection count. -/
def stepThread (sid : Nat) (pool : PoolState) (lockOwner : Option Bool)
    (tid : Bool) (t : ThreadSt) : PoolState × Option Bool × ThreadSt :=
  match t.pc with
  | 0 =>
    match lockOwner with
    | none => (pool, some tid, { t with pc := 1 })
    | some _ => (pool, lockOwner, t)
  | 1 =>
    match pool.clients.lookup sid with
    | some c => (pool, lockOwner, { t with result := some c, pc := 4 })
    | none => (pool, lockOwner, { t with pc := 2 })
  | 2 =>
    ({ pool with connects := pool.connects + 1 }, lockOwner,
      { t with localConn := pool.connects, pc := 3 })
  | 3 =>
    ({ pool with clients := pool.clients ++ [(sid, t.localConn)] }, lockOwner,
      { t with result := some t.localConn, pc := 4 })
  | 4 => (pool, none, { t with pc := 5 })
  | _ => (pool, lockOwner, t)

/-- Let thread `tid` take one step. -/
def step (sid : Nat) (m : Machine) (tid : Bool) : Machine :=
  if tid then
    let r := stepThread sid m.pool m.lockOwner true m.t1
    { pool := r.1, lockOwner := r.2.1, t0 := m.t0, t1 := r.2.2 }
  else
    let r := stepThread sid m.pool m.lockOwner false m.t0
    { pool := r.1, lockOwner := r.2.1, t0 := r.2.2, t1 := m.t1 }

/-- Run the machine under a schedule (the sequence of thread choices). -/
def run (sid : Nat) (m : Machine) : List Bool → Machine
  | [] => m
  | tid :: rest => run sid (step sid m tid) rest

/-- Both callers about to enter `get_by_id`, the pool empty: the racing
first-use situation of the claim. -/
def initMachine : Machine :=
  { pool := ⟨[], 0⟩, lockOwner := none,
    t0 := ⟨0, 0, none⟩, t1 := ⟨0, 0, none⟩ }

/-- Every machine state reachable from `initMachine`, for any schedule:
because the mutex is held from lookup through insert, the two critical
sections cannot overlap and only these sixteen states occur. -/
def reachableStates (sid : Nat) : List Machine :=
  [ ⟨⟨[], 0⟩, none, ⟨0, 0, none⟩, ⟨0, 0, none⟩⟩,
    ⟨⟨[], 0⟩, some false, ⟨1, 0, none⟩, ⟨0, 0, none⟩⟩,
    ⟨⟨[], 0⟩, some true, ⟨0, 0, none⟩, ⟨1, 0, none⟩⟩,
    ⟨⟨[], 0⟩, some false, ⟨2, 0, none⟩, ⟨0, 0, none⟩⟩,
    ⟨⟨[], 0⟩, some true, ⟨0, 0, none⟩, ⟨2, 0, none⟩⟩,
    ⟨⟨[], 1⟩, some false, ⟨3, 0, none⟩, ⟨0, 0, none⟩⟩,
    ⟨⟨[], 1⟩, some true, ⟨0, 0, none⟩, ⟨3, 0, none⟩⟩,
    ⟨⟨[(sid, 0)], 1⟩, some false, ⟨4, 0, some 0⟩, ⟨0, 0, none⟩⟩,
    ⟨⟨[(sid, 0)], 1⟩, some true, ⟨0, 0, none⟩, ⟨4, 0, some 0⟩⟩,
    ⟨⟨[(sid, 0)], 1⟩, none, ⟨5, 0, some 0⟩, ⟨0, 0, none⟩⟩,
    ⟨⟨[(sid, 0)], 1⟩, none, ⟨0, 0, none⟩, ⟨5, 0, some 0⟩⟩,
    ⟨⟨[(sid, 0)], 1⟩, some true, ⟨5, 0, some 0⟩, ⟨1, 0, none⟩⟩,
    ⟨⟨[(sid, 0)], 1⟩, some false, ⟨1, 0, none⟩, ⟨5, 0, some 0⟩⟩,
    ⟨⟨[(sid, 0)], 1⟩, some true, ⟨5, 0, some 0⟩, ⟨4, 0, some 0⟩⟩,
    ⟨⟨[(sid, 0)], 1⟩, some false, ⟨4, 0, some 0⟩, ⟨5, 0, some 0⟩⟩,
    ⟨⟨[(sid, 0)], 1⟩, none, ⟨5, 0, some 0⟩, ⟨5, 0, some 0⟩⟩ ]

theorem reachableStates_closed (sid : Nat) (m : Machine) (tid : Bool)
    (h : m ∈ reachableStates sid) : step sid m tid ∈ reachableStates sid := by
  fin_cases h <;> cases tid <;>
    simp [reachableStates, step, stepThread, List.lookup, beq_self_eq_true]

theorem run_mem_reachableStates (sid : Nat) (sched : List Bool) (m : Machine)
    (h : m ∈ reachableStates sid) : run sid m sched ∈ reachableStates sid := by
  induction sched generalizing m with
  | nil => exact h
  | cons tid rest ih => exact ih _ (reachableStates_closed sid m tid h)

theorem reachableStates_safe (sid : Nat) (m : Machine)
    (h : m ∈ reachableStates sid) :
    m.pool.connects ≤ 1
    ∧ (m.t0.pc = 5 → m.t1.pc = 5 →
        m.pool.connects = 1 ∧ m.t0.result = some 0 ∧ m.t1.result = some 0)
    ∧ (m.t0.pc = 2 ∨ m.t0.pc = 3 → m.lockOwner = some false)
    ∧ (m.t1.pc = 2 ∨ m.t1.pc = 3 → m.lockOwner = some true) := by
  fin_cases h <;> simp

/-- Counterexample to claim C6: with the lock discipline the source
actually has — the guard held for the whole of `get_by_id` — no
interleaving of two first-time callers on the same unseen id can
establish two connections, so the duplicate-connection race the claim
asserts is impossible. -/
theorem c6_no_duplicate_connection_race :
    ¬ ∃ sched : List Bool, 2 ≤ (run 7 initMachine sched).pool.connects := by
  rintro ⟨sched, h2⟩
  have hm := run_mem_reachableStates 7 sched initMachine
    (by rw [reachableStates]; exact List.mem_cons_self _ _)
  have h1 := (reachableStates_safe 7 _ hm).1
  omega

/-- Claim C6 as amended: the pool's map lock is held across the whole
of `get_by_id` — lookup, connect and insert — so a caller performing
the connect always owns the lock, two first-time callers on the same
unseen id serialize, at most one connection is ever established, and
when both calls have returned exactly one connection exists and both
callers hold the same client handle. -/
theorem c6_lock_spans_connect (sid : Nat) (sched : List Bool) :
    ((run sid initMachine sched).t0.pc = 2 ∨ (run sid initMachine sched).t0.pc = 3 →
      (run sid initMachine sched).lockOwner = some false)
    ∧ ((run sid initMachine sched).t1.pc = 2 ∨ (run sid initMachine sched).t1.pc = 3 →
      (run sid initMachine sched).lockOwner = some true)
    ∧ (run sid initMachine sched).pool.connects ≤ 1
    ∧ ((run sid initMachine sched).t0.pc = 5 → (run sid initMachine sched).t1.pc = 5 →
      (run sid initMachine sched).pool.connects = 1
      ∧ (run sid initMachine sched).t0.result = some 0
      ∧ (run sid initMachine sched).t1.result = some 0) := by
  have hm := run_mem_reachableStates sid sched initMachine
    (by rw [reachableStates]; exact List.mem_cons_self _ _)
  obtain ⟨h1, h2, h3, h4⟩ := reachableStates_safe sid _ hm
  exact ⟨h3, h4, h1, h2⟩

/-- Witness for the amended C6 on id 7: after the schedule that lets
caller 0 run to completion and then caller 1, both calls have returned
with one established connection and the same handle; and under the
three-step prefix that brings caller 0 to its connect step, caller 0
owns the lock. -/
theorem c6_lock_spans_connect_witness :
    ((run 7 initMachine [false, false, false, false, false, true, true, true]).pool.connects = 1
      ∧ (run 7 initMachine [false, false, false, false, false, true, true, true]).t0.result = some 0
      ∧ (run 7 initMachine [false, false, false, false, false, true, true, true]).t1.result = some 0)
    ∧ (run 7 initMachine [false, false, false]).lockOwner = some false :=
  ⟨(c6_lock_spans_connect 7 [false, false, false, false, false, true, true, true]).2.2.2
      (by decide) (by decide),
   (c6_lock_spans_connect 7 [false, false, false]).1 (by decide)⟩

end Bifrost
